import Mathlib

/-!
Verification of the AI-orchestration governance layer of the
sealmindset/auditgithub repository.

The definitions below are a shallow embedding of the Python source:

* `src/ai_agent/reasoning.py`  — `ReasoningEngine` (budget gate, history,
  fallback results for every analysis operation);
* `src/ai_agent/providers/openai.py`, `claude.py`, `ollama.py` — request
  parameter construction, JSON-fence sanitization, triage failure shapes,
  per-model cost estimation;
* `src/api/routers/ai.py` — diagram execution sandbox, artifact location
  and the generate/execute/repair flow.

Python floats are embedded as rationals, Python strings as `String` or
`List Char` (for the character-level sanitizer), dictionaries whose field
sets matter as association lists, and code that can raise as `Option` or
`Except` values.  External effects (the provider network call, the
sandboxed subprocess, the diagnostic collector) are parameters of the
embedded functions: each possible outcome of the effect is a constructor
of an environment type, and the embedded function reproduces what the
Python control flow does with that outcome.
-/

namespace AuditGithub

/-- Severity enum of an analysis result.  `providers/base.py` is not part
of the source tree; modelled from the spec §3 (Info/Low/Medium/High/Critical),
matching the string values `"medium"` etc. used throughout the providers. -/
inductive Severity
  | info
  | low
  | medium
  | high
  | critical
deriving DecidableEq, Repr

/-- One remediation suggestion (spec §3; constructed by the providers from
parsed model output). -/
structure RemediationSuggestion where
  action : String
  params : List (String × String)
  rationale : String
  confidence : ℚ
  estimated_impact : String
  safety_level : String
deriving DecidableEq, Repr

/-- The `AIAnalysis` result entity (spec §3; `providers/base.py` is not in
the source tree, so the record is modelled from the spec and from the keyword
arguments used at every construction site in the providers and the engine). -/
structure AIAnalysis where
  root_cause : String
  severity : Severity
  remediation_suggestions : List RemediationSuggestion
  confidence : ℚ
  explanation : String
  estimated_cost : ℚ
  tokens_used : ℕ
deriving DecidableEq, Repr

/-- The spec §3 invariant on `AIAnalysis`: confidence lies in [0,1] and the
cost field is a non-negative currency amount (`tokens_used` is a natural
number, hence non-negative by type). -/
def wfAnalysis (a : AIAnalysis) : Prop :=
  0 ≤ a.confidence ∧ a.confidence ≤ 1 ∧ 0 ≤ a.estimated_cost

instance (a : AIAnalysis) : Decidable (wfAnalysis a) := by
  unfold wfAnalysis; infer_instance

/-- `ReasoningEngine._create_fallback_analysis` (reasoning.py lines 249-276). -/
def fallbackAnalysis (errorMsg repoName scanner : String) : AIAnalysis where
  root_cause := "AI analysis unavailable: " ++ errorMsg
  severity := Severity.medium
  remediation_suggestions := []
  confidence := 0
  explanation :=
    "Unable to perform AI analysis for " ++ repoName ++ " (" ++ scanner
      ++ "). Using fallback."
  estimated_cost := 0
  tokens_used := 0

/-- One entry of `ReasoningEngine.analysis_history` (reasoning.py lines
120-126: a dict with repo_name, scanner, timestamp, analysis and the raw
diagnostic data; the diagnostic payload itself does not influence any of
the verified properties and is kept as its timestamp field). -/
structure HistoryEntry where
  repo_name : String
  scanner : String
  timestamp : Option String
  analysis : AIAnalysis
deriving DecidableEq, Repr

/-- The mutable state an `analyze_stuck_scan` call reads and writes: the
cumulative provider cost (`provider._total_cost`, read through
`provider.get_total_cost()`; the accessor lives in the absent
`providers/base.py` and is modelled from the spec as returning the ledger
cumulative cost) and the engine analysis history. -/
structure EngineState where
  totalCost : ℚ
  history : List HistoryEntry
deriving DecidableEq, Repr

/-- The budget admission test of `ReasoningEngine.analyze_stuck_scan`
(reasoning.py lines 67-93): with non-empty history deny when the average
cost per analysis exceeds `max_cost_per_analysis`, with empty history deny
when the cumulative cost already exceeds it.  `true` means denied. -/
def budgetDenied (ceiling : ℚ) (s : EngineState) : Bool :=
  if 0 < s.history.length then
    decide (s.totalCost / (s.history.length : ℚ) > ceiling)
  else
    decide (s.totalCost > ceiling)

/-- Outcome of the effectful part of one admitted `analyze_stuck_scan` call:
either `DiagnosticCollector.collect` raises before the provider is reached
(the engine catch-all at reasoning.py lines 137-139 then returns the
fallback), or the provider call completes, returning an analysis and having
advanced the provider cost counter by `costDelta` (the provider never
raises: both providers catch internally and return their own fallback). -/
inductive CallEnv
  | collectFail (err : String)
  | ok (costDelta : ℚ) (timestamp : Option String) (a : AIAnalysis)
deriving DecidableEq, Repr

/-- `ReasoningEngine.analyze_stuck_scan` (reasoning.py lines 39-139) as a
state transition.  Returns the analysis handed to the caller, the state
after the call, and whether the provider adapter was invoked. -/
def analyzeStuckScanStep (ceiling : ℚ) (repoName scanner : String)
    (env : CallEnv) (s : EngineState) : AIAnalysis × EngineState × Bool :=
  if budgetDenied ceiling s then
    (fallbackAnalysis "Cost budget exceeded" repoName scanner, s, false)
  else
    match env with
    | CallEnv.collectFail err =>
        (fallbackAnalysis err repoName scanner, s, false)
    | CallEnv.ok costDelta ts a =>
        (a,
         { totalCost := s.totalCost + costDelta,
           history := s.history ++ [⟨repoName, scanner, ts, a⟩] },
         true)

/-- A sequence of `analyze_stuck_scan` calls (repo name, scanner and the
outcome environment of each), folded through the engine state. -/
def runEngine (ceiling : ℚ) : EngineState → List (String × String × CallEnv) → EngineState
  | s, [] => s
  | s, (r, sc, env) :: rest =>
      runEngine ceiling (analyzeStuckScanStep ceiling r sc env s).2.1 rest

/-- A JSON-ish dictionary value: the providers return `Dict[str, Any]`
whose values in the failure branches are strings or numbers. -/
inductive JVal
  | s (v : String)
  | q (v : ℚ)
deriving DecidableEq, Repr

/-- A Python dict as an ordered association list of fields. -/
def JDict : Type := List (String × JVal)

/-- `ReasoningEngine.triage_finding` (reasoning.py lines 215-239): delegate
to the provider; on any raised error return the four-field fallback dict. -/
def engineTriageFinding (severity : String) (out : Except String JDict) : JDict :=
  match out with
  | Except.ok r => r
  | Except.error e =>
      [("priority", JVal.s severity),
       ("confidence", JVal.q 0),
       ("reasoning", JVal.s ("AI triage failed: " ++ e)),
       ("false_positive_probability", JVal.q 0)]

/-- `ReasoningEngine.explain_timeout` (reasoning.py lines 141-169): delegate
to the provider; on any raised error return the synthesized sentence. -/
def engineExplainTimeout (repoName scanner : String) (timeoutDuration : ℕ)
    (out : Except String String) : String :=
  match out with
  | Except.ok t => t
  | Except.error _ =>
      "The " ++ scanner ++ " scanner timed out after "
        ++ toString timeoutDuration ++ " seconds while scanning "
        ++ repoName ++ "."

/-- `ReasoningEngine.generate_remediation` (reasoning.py lines 171-190):
delegate; on any raised error return the fixed two-field dict. -/
def engineGenerateRemediation (out : Except String JDict) : JDict :=
  match out with
  | Except.ok r => r
  | Except.error _ =>
      [("remediation", JVal.s "AI generation failed."),
       ("diff", JVal.s "")]

/-- `ReasoningEngine.generate_architecture_overview` (reasoning.py lines
192-213): if the provider lacks the method return a fixed sentence,
otherwise delegate and turn any raised error into an error sentence. -/
def engineGenerateArchitectureOverview (hasMethod : Bool)
    (out : Except String String) : String :=
  if hasMethod then
    match out with
    | Except.ok t => t
    | Except.error e => "Failed to generate architecture overview: " ++ e
  else
    "AI provider does not support architecture analysis."

/-- Bool test: does `pat` occur as a contiguous sublist of the second list
(the Python substring operator `in`)? -/
def containsSub (pat : List Char) : List Char → Bool
  | [] => pat.isEmpty
  | c :: rest => pat.isPrefixOf (c :: rest) || containsSub pat rest

/-- Python `self.model.lower()`. -/
def lowerChars (s : String) : List Char := s.toList.map Char.toLower

/-- The reasoning-family test repeated at openai.py lines 95, 214, 308, 357
and 524: the lowered model id contains gpt-5, o1 or o3. -/
def isReasoningModel (model : String) : Bool :=
  containsSub "gpt-5".toList (lowerChars model)
    || containsSub "o1".toList (lowerChars model)
    || containsSub "o3".toList (lowerChars model)

/-- The `api_params` dictionary assembled by the OpenAI provider before a
chat-completion call: which token-limit parameter is present and with what
value, whether a temperature is passed, whether a separate system-role
message is used, and whether a JSON response format is requested. -/
structure ApiParams where
  model : String
  systemRole : Bool
  maxTokensParam : Option ℕ
  maxCompletionTokensParam : Option ℕ
  temperature : Option ℚ
  responseFormatJson : Bool
deriving DecidableEq, Repr

/-- Request shape of `OpenAIProvider.analyze_stuck_scan` (openai.py lines
79-100): always a system plus user message and JSON response format; the
reasoning branch passes `max_completion_tokens` and no temperature, the
legacy branch passes `max_tokens` and temperature 0.3. -/
def analyzeStuckScanApiParams (model : String) (maxTokens : ℕ) : ApiParams :=
  if isReasoningModel model then
    { model := model, systemRole := true, maxTokensParam := none,
      maxCompletionTokensParam := some maxTokens, temperature := none,
      responseFormatJson := true }
  else
    { model := model, systemRole := true, maxTokensParam := some maxTokens,
      maxCompletionTokensParam := none, temperature := some (3/10),
      responseFormatJson := true }

/-- Request shape of `OpenAIProvider.triage_finding` (openai.py lines
214-238): the reasoning branch merges the system prompt into the user
message, passes `max_completion_tokens = 500`, no temperature and no JSON
response format; the legacy branch uses `max_tokens = 500`, temperature 0.3
and a JSON response format. -/
def triageFindingApiParams (model : String) : ApiParams :=
  if isReasoningModel model then
    { model := model, systemRole := false, maxTokensParam := none,
      maxCompletionTokensParam := some 500, temperature := none,
      responseFormatJson := false }
  else
    { model := model, systemRole := true, maxTokensParam := some 500,
      maxCompletionTokensParam := none, temperature := some (3/10),
      responseFormatJson := true }

/-- Request shape of `OpenAIProvider.generate_remediation` (openai.py lines
357-381): same branching as triage but with a 1000 token limit and legacy
temperature 0.2. -/
def generateRemediationApiParams (model : String) : ApiParams :=
  if isReasoningModel model then
    { model := model, systemRole := false, maxTokensParam := none,
      maxCompletionTokensParam := some 1000, temperature := none,
      responseFormatJson := false }
  else
    { model := model, systemRole := true, maxTokensParam := some 1000,
      maxCompletionTokensParam := none, temperature := some (1/5),
      responseFormatJson := true }

/-- Request shape of `OpenAIProvider.execute_prompt` (openai.py lines
524-546): reasoning branch merges the system prompt, 10000 completion
tokens, no temperature; legacy branch 4000 tokens, temperature 0.3. -/
def executePromptApiParams (model : String) : ApiParams :=
  if isReasoningModel model then
    { model := model, systemRole := false, maxTokensParam := none,
      maxCompletionTokensParam := some 10000, temperature := none,
      responseFormatJson := false }
  else
    { model := model, systemRole := true, maxTokensParam := some 4000,
      maxCompletionTokensParam := none, temperature := some (3/10),
      responseFormatJson := false }

/-- Request shape of `OpenAIProvider.explain_timeout` (openai.py lines
298-311): the base dictionary is built with system plus user messages and
an unconditional `temperature = 0.5`; the branch at line 308 then only
chooses which token-limit parameter carries the value 200.  Note the
temperature entry is present in both branches. -/
def explainTimeoutApiParams (model : String) : ApiParams :=
  if isReasoningModel model then
    { model := model, systemRole := true, maxTokensParam := none,
      maxCompletionTokensParam := some 200, temperature := some (1/2),
      responseFormatJson := false }
  else
    { model := model, systemRole := true, maxTokensParam := some 200,
      maxCompletionTokensParam := none, temperature := some (1/2),
      responseFormatJson := false }

/-- The characters stripped by Python `str.strip()` (ASCII whitespace). -/
def pyWS (c : Char) : Bool :=
  c = ' ' || c = '\t' || c = '\n' || c = '\r'
    || c = Char.ofNat 11 || c = Char.ofNat 12

/-- Python `str.strip()`: drop whitespace from both ends (right end first;
the two directions commute). -/
def pyStrip (l : List Char) : List Char :=
  (l.rdropWhile pyWS).dropWhile pyWS

/-- The three-backtick code-fence marker. -/
def fenceChars : List Char := ['`', '`', '`']

/-- Python `content.split("\n", 1)`: split at the first newline.  `none`
when there is no newline, in which case the `[1]` subscript at openai.py
line 184 raises an IndexError. -/
def splitFirstNL : List Char → Option (List Char × List Char)
  | [] => none
  | c :: rest =>
    if c = '\n' then some ([], rest)
    else
      match splitFirstNL rest with
      | none => none
      | some (a, b) => some (c :: a, b)

/-- `OpenAIProvider._clean_json_response` (openai.py lines 179-188): strip;
if the text starts with a fence, drop the opening fence line and, when the
remainder ends with a fence, the trailing fence (a `rsplit` at the last
fence occurrence, which under the endswith guard removes exactly the final
three characters); strip again.  `none` models the IndexError raised when a
fence-opening text has no newline at all. -/
def cleanJsonResponse (content : List Char) : Option (List Char) :=
  if fenceChars.isPrefixOf (pyStrip content) then
    match splitFirstNL (pyStrip content) with
    | none => none
    | some (_, rest) =>
      if fenceChars.isSuffixOf rest then some (pyStrip (rest.take (rest.length - 3)))
      else some (pyStrip rest)
  else
    some (pyStrip content)

/-- A code-fenced form of a text: opening fence line with an optional
language tag, the text, and a trailing fence line. -/
def fencedForm (tag t : List Char) : List Char :=
  fenceChars ++ tag ++ ['\n'] ++ t ++ ['\n'] ++ fenceChars

/-- The value-level failure dict of `OpenAIProvider.triage_finding`, both
the JSON-decode branch (openai.py lines 253-258) and the exception branch
(lines 262-267): four fields. -/
def openaiTriageExcFallback (severity err : String) : JDict :=
  [("priority", JVal.s severity),
   ("confidence", JVal.q 0),
   ("reasoning", JVal.s ("AI triage failed: " ++ err)),
   ("false_positive_probability", JVal.q 0)]

/-- The JSON-decode failure dict of `OpenAIProvider.triage_finding`
(openai.py lines 253-258). -/
def openaiTriageParseFallback (severity : String) : JDict :=
  [("priority", JVal.s severity),
   ("confidence", JVal.q 0),
   ("reasoning", JVal.s "Failed to parse AI response"),
   ("false_positive_probability", JVal.q 0)]

/-- The failure dict of `ClaudeProvider.triage_finding` (claude.py lines
293-297): a single field. -/
def claudeTriageFallback (severity : String) : JDict :=
  [("priority", JVal.s severity)]

/-- The failure dict of `OllamaProvider.triage_finding` (ollama.py lines
177-178): three fields, no false-positive probability. -/
def ollamaTriageFallback (severity err : String) : JDict :=
  [("priority", JVal.s severity),
   ("confidence", JVal.q 0),
   ("reasoning", JVal.s err)]

/-- `OpenAIProvider.PRICING` (openai.py lines 32-38) with the
`PRICING.get(self.model, PRICING["gpt-4-turbo"])` default of
`estimate_cost` (line 682); prices per 1K tokens as (input, output). -/
def openaiPricing (model : String) : ℚ × ℚ :=
  if model = "gpt-4-turbo" then (1/100, 3/100)
  else if model = "gpt-4" then (3/100, 6/100)
  else if model = "gpt-4-turbo-preview" then (1/100, 3/100)
  else if model = "gpt-4o" then (1/200, 3/200)
  else if model = "gpt-5" then (1/100, 3/100)
  else (1/100, 3/100)

/-- `OpenAIProvider.estimate_cost` (openai.py lines 671-685). -/
def openaiEstimateCost (model : String) (inputTokens outputTokens : ℕ) : ℚ :=
  (inputTokens : ℚ) / 1000 * (openaiPricing model).1
    + (outputTokens : ℚ) / 1000 * (openaiPricing model).2

/-- `ClaudeProvider.PRICING` (claude.py lines 32-36) with the sonnet
default of `estimate_cost` (line 451); prices per 1M tokens. -/
def claudePricing (model : String) : ℚ × ℚ :=
  if model = "claude-3-opus-20240229" then (15, 75)
  else if model = "claude-3-sonnet-20240229" then (3, 15)
  else if model = "claude-3-haiku-20240307" then (1/4, 5/4)
  else (3, 15)

/-- `ClaudeProvider.estimate_cost` (claude.py lines 440-454). -/
def claudeEstimateCost (model : String) (inputTokens outputTokens : ℕ) : ℚ :=
  (inputTokens : ℚ) / 1000000 * (claudePricing model).1
    + (outputTokens : ℚ) / 1000000 * (claudePricing model).2

/-- `OllamaProvider.estimate_cost` (ollama.py lines 197-198): always zero. -/
def ollamaEstimateCost (_inputTokens _outputTokens : ℕ) : ℚ := 0

/-- Result data parsed from an Ollama model reply in
`OllamaProvider.analyze_stuck_scan` (ollama.py lines 68-92). -/
structure OllamaParsed where
  root_cause : String
  severity : Severity
  suggestions : List RemediationSuggestion
  confidence : ℚ
  explanation : String
deriving DecidableEq, Repr

/-- Outcome of the network call plus JSON parse inside
`OllamaProvider.analyze_stuck_scan`: either parsed data with a token usage
count, or any raised error (transport, JSON decode, invalid enum value),
which the except branch at ollama.py lines 94-104 converts. -/
inductive OllamaOutcome
  | success (parsed : OllamaParsed) (totalTokens : ℕ)
  | failure (err : String)
deriving DecidableEq, Repr

/-- `OllamaProvider.analyze_stuck_scan` (ollama.py lines 45-104): returns
the analysis handed back and the amount added to the provider cumulative
cost counter (no branch of the method touches `_total_cost`, and
`estimated_cost` is hard-coded 0.0 at line 90). -/
def ollamaAnalyzeStuckScan (o : OllamaOutcome) : AIAnalysis × ℚ :=
  match o with
  | OllamaOutcome.success parsed totalTokens =>
      ({ root_cause := parsed.root_cause,
         severity := parsed.severity,
         remediation_suggestions := parsed.suggestions,
         confidence := parsed.confidence,
         explanation := parsed.explanation,
         estimated_cost := 0,
         tokens_used := totalTokens }, 0)
  | OllamaOutcome.failure err =>
      ({ root_cause := "AI analysis failed: " ++ err,
         severity := Severity.medium,
         remediation_suggestions := [],
         confidence := 0,
         explanation := "Unable to complete AI analysis.",
         estimated_cost := 0,
         tokens_used := 0 }, 0)

/-- Outcome of running a diagram script in the sandbox
(`execute_diagram_code`, ai.py lines 320-357): a nonzero exit with captured
output, or a zero exit leaving a set of files (name, content) in the
temporary working directory.  File contents stand for the bytes the route
then base64-encodes; the encoding itself is a bijective wrapper and is left
out. -/
inductive ScriptRun
  | exited0 (files : List (String × String))
  | failed (output : String)
deriving DecidableEq, Repr

/-- Python `name.endswith(suffix)`. -/
def pyEndsWith (s suffix : String) : Bool :=
  suffix.toList.isSuffixOf s.toList

/-- The artifact-location step of `execute_diagram_code` (ai.py lines
347-357): prefer the well-known `architecture_diagram.png`, else the first
`.png` file listed, else raise. -/
def locateArtifact (files : List (String × String)) : Except String String :=
  match files.find? (fun f => f.1 == "architecture_diagram.png") with
  | some f => Except.ok f.2
  | none =>
    match (files.filter (fun f => pyEndsWith f.1 ".png")).head? with
    | some f => Except.ok f.2
    | none => Except.error "No PNG image generated by the script"

/-- `execute_diagram_code` (ai.py lines 320-357): a failed script run
raises with the captured output; a successful one runs artifact location. -/
def executeDiagramCode : ScriptRun → Except String String
  | ScriptRun.failed output => Except.error ("Script execution failed: " ++ output)
  | ScriptRun.exited0 files => locateArtifact files

/-- Find the first occurrence of `pat` as a contiguous sublist, returning
the elements before it and the elements after it. -/
def findSub (pat : List Char) : List Char → Option (List Char × List Char)
  | [] => if pat.isEmpty then some ([], []) else none
  | c :: rest =>
    if pat.isPrefixOf (c :: rest) then some ([], (c :: rest).drop pat.length)
    else
      match findSub pat rest with
      | none => none
      | some p => some (c :: p.1, p.2)

/-- Python `str.replace(pat, "")`: remove every non-overlapping occurrence
of a pattern, scanning left to right. -/
def removeAll (pat : List Char) : List Char → List Char
  | [] => []
  | c :: rest =>
    if h : pat ≠ [] ∧ pat.isPrefixOf (c :: rest) then
      removeAll pat ((c :: rest).drop pat.length)
    else
      c :: removeAll pat rest
termination_by l => l.length
decreasing_by
  · simp only [List.length_drop, List.length_cons]
    have hp : 1 ≤ pat.length := by
      cases pat with
      | nil => exact absurd rfl h.1
      | cons a as => simp
    omega
  · simp

/-- The opening marker of a python code block. -/
def pythonFenceOpen : List Char := fenceChars ++ "python\n".toList

/-- The literal text replaced first in the fallback branch. -/
def pythonFenceTag : List Char := fenceChars ++ "python".toList

/-- The code-block cleanup applied to a repaired diagram source (ai.py
lines 299-303 and 420-424): a search for a python-fenced block (first
occurrence of the opening marker, then the shortest run up to the next
fence) whose body is stripped; otherwise remove every occurrence of the
python fence tag and then of the bare fence, and strip. -/
def cleanCodeBlock (raw : List Char) : List Char :=
  match findSub pythonFenceOpen raw with
  | some p =>
    match findSub fenceChars p.2 with
    | some q => pyStrip q.1
    | none => pyStrip (removeAll fenceChars (removeAll pythonFenceTag raw))
  | none => pyStrip (removeAll fenceChars (removeAll pythonFenceTag raw))

/-- Outcome of one sandbox execution inside the repair flow. -/
inductive ExecResult
  | ok (image : String)
  | fail (err : String)
deriving DecidableEq, Repr

/-- The external outcomes the generate/execute/repair flow can consume: the
first execution of the generated code, the provider repair call
(`fix_and_enhance_diagram_code`, which can itself raise), and the execution
of the repaired code.  The latter two are only consumed when the flow
reaches them. -/
structure DiagramEnv where
  firstExec : ExecResult
  repairResult : Except String (List Char)
  secondExec : ExecResult

/-- Final data of the diagram flow as saved and returned by the routes
(ai.py lines 406-442 and 283-318): the last-known source code, the image
when one was produced, and instrumentation counting provider repair calls
and sandbox executions. -/
structure FlowResult where
  code : List Char
  image : Option String
  repairCalls : ℕ
  execCalls : ℕ
deriving DecidableEq

/-- The execute/repair flow shared by `generate_architecture` (ai.py lines
406-431) and `update_architecture` (lines 285-311): execute the code; on
failure make exactly one `fix_and_enhance_diagram_code` call, clean the
returned block, re-execute once; any failure of the repair call or of the
second execution is swallowed, leaving the last-known code and no image. -/
def repairFlow (code0 : List Char) (env : DiagramEnv) : FlowResult :=
  match env.firstExec with
  | ExecResult.ok image => ⟨code0, some image, 0, 1⟩
  | ExecResult.fail _ =>
    match env.repairResult with
    | Except.error _ => ⟨code0, none, 1, 1⟩
    | Except.ok raw =>
      let fixedCode := cleanCodeBlock raw
      match env.secondExec with
      | ExecResult.ok image => ⟨fixedCode, some image, 1, 2⟩
      | ExecResult.fail _ => ⟨fixedCode, none, 1, 2⟩

theorem pyWS_backtick : pyWS '`' = false := by decide

theorem pyWS_nl : pyWS '\n' = true := by decide

theorem lstrip_fence_append (rest : List Char) :
    (fenceChars ++ rest).dropWhile pyWS = fenceChars ++ rest := by
  simp [fenceChars, List.dropWhile_cons, pyWS_backtick]

theorem rstrip_fence_append (l : List Char) :
    (l ++ fenceChars).rdropWhile pyWS = l ++ fenceChars := by
  rw [List.rdropWhile_eq_self_iff]
  intro hl
  rw [List.getLast_append' l fenceChars (by simp [fenceChars])]
  simp [fenceChars, pyWS_backtick]

theorem pyStrip_fenced (tag t : List Char) :
    pyStrip (fencedForm tag t) = fencedForm tag t := by
  have h1 : fencedForm tag t
      = (fenceChars ++ tag ++ ['\n'] ++ t ++ ['\n']) ++ fenceChars := by
    simp [fencedForm, List.append_assoc]
  have h2 : (fenceChars ++ tag ++ ['\n'] ++ t ++ ['\n']) ++ fenceChars
      = fenceChars ++ (tag ++ ['\n'] ++ t ++ ['\n'] ++ fenceChars) := by
    simp [List.append_assoc]
  rw [pyStrip, h1, rstrip_fence_append, h2, lstrip_fence_append, ← h2, ← h1]

theorem splitFirstNL_append (pre suf : List Char) (h : '\n' ∉ pre) :
    splitFirstNL (pre ++ '\n' :: suf) = some (pre, suf) := by
  induction pre with
  | nil => simp [splitFirstNL]
  | cons c cs ih =>
    have hc : ¬ c = '\n' := fun hh => h (hh ▸ List.mem_cons_self c cs)
    have h2 : '\n' ∉ cs := fun hm => h (List.mem_cons_of_mem _ hm)
    simp [splitFirstNL, hc, ih h2]

theorem take_drop_trailing_fence (t : List Char) :
    (t ++ '\n' :: fenceChars).take ((t ++ '\n' :: fenceChars).length - 3)
      = t ++ ['\n'] := by
  have h : t ++ '\n' :: fenceChars = (t ++ ['\n']) ++ fenceChars := by simp
  rw [h]
  have h3 : (3 : ℕ) = fenceChars.length := by simp [fenceChars]
  rw [h3]
  exact List.rdrop_append_length

theorem pyStrip_append_nl (t : List Char) :
    pyStrip (t ++ ['\n']) = pyStrip t := by
  simp [pyStrip, List.rdropWhile_concat_pos pyWS t '\n' pyWS_nl]

theorem getLast_of_suffix (v u : List Char) (h : v <:+ u) (hv : v ≠ [])
    (hu : u ≠ []) : v.getLast hv = u.getLast hu := by
  obtain ⟨w, rfl⟩ := h
  exact (List.getLast_append' w v hv).symm

theorem pyStrip_idem (l : List Char) : pyStrip (pyStrip l) = pyStrip l := by
  unfold pyStrip
  have h1 : ((l.rdropWhile pyWS).dropWhile pyWS).rdropWhile pyWS
      = (l.rdropWhile pyWS).dropWhile pyWS := by
    rw [List.rdropWhile_eq_self_iff]
    intro hne
    have hune : l.rdropWhile pyWS ≠ [] := by
      intro h0
      rw [h0] at hne
      simp at hne
    rw [getLast_of_suffix _ _ (List.dropWhile_suffix pyWS) hne hune]
    exact List.rdropWhile_last_not pyWS l hune
  rw [h1, List.dropWhile_idempotent]

/-- C4: the response sanitizer `_clean_json_response` is fence-insensitive
and idempotent.  For every text whose stripped form does not itself start
with a code fence (every JSON text: a JSON value starts with a brace,
bracket, quote, digit, sign or literal, never with a backtick), sanitizing
the code-fenced form — any opening fence line with an optional language
tag, trailing fence line — yields exactly the same string as sanitizing
the bare text, hence both parse to the same structured value; sanitizing
is idempotent on such texts, and already-clean (stripped, unfenced) text is
returned unchanged. -/
theorem clean_json_response_fence_insensitive_idempotent (t tag : List Char)
    (htag : '\n' ∉ tag)
    (ht : fenceChars.isPrefixOf (pyStrip t) = false) :
    cleanJsonResponse (fencedForm tag t) = some (pyStrip t)
    ∧ cleanJsonResponse t = some (pyStrip t)
    ∧ (cleanJsonResponse t).bind cleanJsonResponse = cleanJsonResponse t
    ∧ (pyStrip t = t → cleanJsonResponse t = some t) := by
  have hclean_t : cleanJsonResponse t = some (pyStrip t) := by
    unfold cleanJsonResponse
    simp [ht]
  have hfenced : cleanJsonResponse (fencedForm tag t) = some (pyStrip t) := by
    have hpre : fenceChars.isPrefixOf (fencedForm tag t) = true := by
      rw [List.isPrefixOf_iff_prefix]
      exact ⟨tag ++ ['\n'] ++ t ++ ['\n'] ++ fenceChars, by
        simp [fencedForm, List.append_assoc]⟩
    have hsplit : splitFirstNL (fencedForm tag t)
        = some (fenceChars ++ tag, t ++ '\n' :: fenceChars) := by
      have hnot : '\n' ∉ fenceChars ++ tag := by
        intro hm
        rcases List.mem_append.1 hm with hmem | hmem
        · simp [fenceChars] at hmem
        · exact htag hmem
      have hform : fencedForm tag t
          = (fenceChars ++ tag) ++ '\n' :: (t ++ '\n' :: fenceChars) := by
        simp [fencedForm, List.append_assoc]
      rw [hform]
      exact splitFirstNL_append _ _ hnot
    have hsuf : fenceChars.isSuffixOf (t ++ '\n' :: fenceChars) = true := by
      rw [List.isSuffixOf_iff_suffix]
      exact ⟨t ++ ['\n'], by simp⟩
    unfold cleanJsonResponse
    rw [pyStrip_fenced, if_pos hpre, hsplit]
    show (if fenceChars.isSuffixOf (t ++ '\n' :: fenceChars) then
        some (pyStrip ((t ++ '\n' :: fenceChars).take
          ((t ++ '\n' :: fenceChars).length - 3)))
      else some (pyStrip (t ++ '\n' :: fenceChars))) = some (pyStrip t)
    rw [if_pos hsuf, take_drop_trailing_fence, pyStrip_append_nl]
  have hidem : (cleanJsonResponse t).bind cleanJsonResponse = cleanJsonResponse t := by
    rw [hclean_t]
    show cleanJsonResponse (pyStrip t) = some (pyStrip t)
    unfold cleanJsonResponse
    rw [pyStrip_idem]
    simp [ht]
  exact ⟨hfenced, hclean_t, hidem, fun hts => by rw [hclean_t, hts]⟩

/-- Witness for C4 on the concrete JSON text from the spec example shape. -/
theorem clean_json_response_witness :
    cleanJsonResponse (fencedForm "json".toList "[1, 2]".toList)
        = some "[1, 2]".toList
    ∧ cleanJsonResponse "[1, 2]".toList = some "[1, 2]".toList := by
  have htag : '\n' ∉ "json".toList := by decide
  have ht : fenceChars.isPrefixOf (pyStrip "[1, 2]".toList) = false := by decide
  have h := clean_json_response_fence_insensitive_idempotent
    "[1, 2]".toList "json".toList htag ht
  have hps : pyStrip "[1, 2]".toList = "[1, 2]".toList := by decide
  exact ⟨by rw [h.1, hps], by rw [h.2.1, hps]⟩

/-- C1: budget admission for `analyze_stuck_scan`.  With empty history the
call is admitted exactly when the cumulative cost does not exceed the
ceiling; with non-empty history it is admitted exactly when the average
cost (cumulative cost over history length) is at most the ceiling; a
denied call does not invoke the provider and hands back the fallback
`AIAnalysis` with confidence 0, estimated cost 0, tokens 0 and a root
cause noting budget exhaustion. -/
theorem budget_admission_spec (ceiling : ℚ) (repoName scanner : String)
    (env : CallEnv) (s : EngineState) :
    (s.history.length = 0 →
      (budgetDenied ceiling s = false ↔ s.totalCost ≤ ceiling))
    ∧ (0 < s.history.length →
      (budgetDenied ceiling s = false
        ↔ s.totalCost / (s.history.length : ℚ) ≤ ceiling))
    ∧ (budgetDenied ceiling s = true →
        analyzeStuckScanStep ceiling repoName scanner env s
          = (fallbackAnalysis "Cost budget exceeded" repoName scanner, s, false)
        ∧ (analyzeStuckScanStep ceiling repoName scanner env s).1.confidence = 0
        ∧ (analyzeStuckScanStep ceiling repoName scanner env s).1.estimated_cost = 0
        ∧ (analyzeStuckScanStep ceiling repoName scanner env s).1.tokens_used = 0
        ∧ (analyzeStuckScanStep ceiling repoName scanner env s).1.root_cause
            = "AI analysis unavailable: Cost budget exceeded") := by
  refine ⟨?_, ?_, ?_⟩
  · intro h0
    simp [budgetDenied, h0, not_lt]
  · intro hpos
    simp [budgetDenied, hpos, not_lt]
  · intro hd
    have hstep : analyzeStuckScanStep ceiling repoName scanner env s
        = (fallbackAnalysis "Cost budget exceeded" repoName scanner, s, false) := by
      simp [analyzeStuckScanStep, hd]
    exact ⟨hstep, by simp [hstep, fallbackAnalysis], by simp [hstep, fallbackAnalysis],
      by simp [hstep, fallbackAnalysis], by simp [hstep, fallbackAnalysis]⟩

/-- Witness for C1: empty history with pre-seeded cost 1 above the 0.5
ceiling is denied and gets the budget fallback. -/
theorem budget_admission_spec_witness :
    budgetDenied (1/2) ⟨1, []⟩ = true
    ∧ analyzeStuckScanStep (1/2) "svc-gateway" "trivy"
        (CallEnv.collectFail "boom") ⟨1, []⟩
        = (fallbackAnalysis "Cost budget exceeded" "svc-gateway" "trivy",
           ⟨1, []⟩, false)
    ∧ (fallbackAnalysis "Cost budget exceeded" "svc-gateway" "trivy").confidence
        = 0 := by
  have hd : budgetDenied (1/2) (⟨1, []⟩ : EngineState) = true := by
    simp [budgetDenied]
    norm_num
  have h := budget_admission_spec (1/2) "svc-gateway" "trivy"
    (CallEnv.collectFail "boom") ⟨1, []⟩
  exact ⟨hd, (h.2.2 hd).1, (h.2.2 hd).2.1 ▸ ((h.2.2 hd).1 ▸ rfl)⟩

/-- C2: a budget-denied `analyze_stuck_scan` call is a pure no-op on the
ledger.  Whenever the history holds N ≥ 1 entries and cumulative cost over
N exceeds the ceiling, the next call returns the budget fallback, does not
invoke the provider adapter, appends nothing, and leaves cumulative cost
and history length exactly as they were. -/
theorem denied_call_frame (ceiling : ℚ) (repoName scanner : String)
    (env : CallEnv) (s : EngineState)
    (hN : 1 ≤ s.history.length)
    (havg : ceiling < s.totalCost / (s.history.length : ℚ)) :
    analyzeStuckScanStep ceiling repoName scanner env s
      = (fallbackAnalysis "Cost budget exceeded" repoName scanner, s, false)
    ∧ (analyzeStuckScanStep ceiling repoName scanner env s).2.1.totalCost
        = s.totalCost
    ∧ (analyzeStuckScanStep ceiling repoName scanner env s).2.1.history.length
        = s.history.length
    ∧ (analyzeStuckScanStep ceiling repoName scanner env s).2.2 = false := by
  have hpos : 0 < s.history.length := hN
  have hd : budgetDenied ceiling s = true := by
    simp [budgetDenied, hpos, decide_eq_true_eq]
    exact havg
  have hstep : analyzeStuckScanStep ceiling repoName scanner env s
      = (fallbackAnalysis "Cost budget exceeded" repoName scanner, s, false) := by
    simp [analyzeStuckScanStep, hd]
  exact ⟨hstep, by rw [hstep], by rw [hstep], by rw [hstep]⟩

/-- Witness for C2, mirroring the end-to-end spec example: two recorded
analyses totalling 1.20 against a 0.50 ceiling deny the third call and
leave the state untouched. -/
theorem denied_call_frame_witness :
    analyzeStuckScanStep (1/2) "svc-gateway" "trivy"
        (CallEnv.ok (3/10) none (fallbackAnalysis "x" "svc-gateway" "trivy"))
        ⟨6/5, [⟨"r1", "trivy", none, fallbackAnalysis "a" "r1" "trivy"⟩,
               ⟨"r2", "grype", none, fallbackAnalysis "b" "r2" "grype"⟩]⟩
      = (fallbackAnalysis "Cost budget exceeded" "svc-gateway" "trivy",
         ⟨6/5, [⟨"r1", "trivy", none, fallbackAnalysis "a" "r1" "trivy"⟩,
                ⟨"r2", "grype", none, fallbackAnalysis "b" "r2" "grype"⟩]⟩,
         false) := by
  have hN : 1 ≤ ([⟨"r1", "trivy", none, fallbackAnalysis "a" "r1" "trivy"⟩,
      ⟨"r2", "grype", none, fallbackAnalysis "b" "r2" "grype"⟩] :
        List HistoryEntry).length := by
    simp
  have havg : (1/2 : ℚ) < (6/5) /
      ((([⟨"r1", "trivy", none, fallbackAnalysis "a" "r1" "trivy"⟩,
          ⟨"r2", "grype", none, fallbackAnalysis "b" "r2" "grype"⟩] :
            List HistoryEntry).length : ℚ)) := by
    norm_num
  exact (denied_call_frame (1/2) "svc-gateway" "trivy"
    (CallEnv.ok (3/10) none (fallbackAnalysis "x" "svc-gateway" "trivy"))
    ⟨6/5, _⟩ hN havg).1

/-- C10: the Ollama adapter is free for the budget gate.  Its
`estimate_cost` is identically zero, its `analyze_stuck_scan` adds nothing
to the cumulative cost counter on any path, and consequently — the counter
staying at zero — the stuck-scan admission gate admits every call for any
non-negative ceiling: the denial branch is unreachable however many
analyses have run. -/
theorem ollama_zero_cost_admission (ceiling : ℚ) (hc : 0 ≤ ceiling) :
    (∀ i o, ollamaEstimateCost i o = 0)
    ∧ (∀ out, (ollamaAnalyzeStuckScan out).2 = 0)
    ∧ (∀ s : EngineState, s.totalCost = 0 → budgetDenied ceiling s = false)
    ∧ (∀ calls : List (String × String × CallEnv),
        (∀ c ∈ calls, ∀ δ ts a, c.2.2 = CallEnv.ok δ ts a → δ = 0) →
        ∀ s : EngineState, s.totalCost = 0 →
          (runEngine ceiling s calls).totalCost = 0
          ∧ budgetDenied ceiling (runEngine ceiling s calls) = false) := by
  have hgateOff : ∀ s : EngineState, s.totalCost = 0 →
      budgetDenied ceiling s = false := by
    intro s hs
    by_cases hpos : 0 < s.history.length
    · simp [budgetDenied, hpos, hs, not_lt, hc]
    · simp [budgetDenied, hpos, hs, not_lt, hc]
  refine ⟨fun _ _ => rfl, fun out => ?_, hgateOff, ?_⟩
  · cases out <;> rfl
  · intro calls
    induction calls with
    | nil =>
      intro _ s hs
      exact ⟨hs, hgateOff s hs⟩
    | cons c rest ih =>
      intro hz s hs
      obtain ⟨r, sc, env⟩ := c
      have hstep : (analyzeStuckScanStep ceiling r sc env s).2.1.totalCost = 0 := by
        rw [analyzeStuckScanStep.eq_def, if_neg (by simp [hgateOff s hs])]
        cases env with
        | collectFail e => simpa using hs
        | ok δ ts a =>
          have hδ : δ = 0 :=
            hz (r, sc, CallEnv.ok δ ts a) (List.mem_cons_self _ _) δ ts a rfl
          simp [hs, hδ]
      have := ih (fun c hcm => hz c (List.mem_cons_of_mem _ hcm)) _ hstep
      simpa [runEngine] using this

/-- Witness for C10 at ceiling 0.5 with one admitted zero-cost call. -/
theorem ollama_zero_cost_admission_witness :
    ollamaEstimateCost 10 20 = 0
    ∧ (runEngine (1/2) ⟨0, []⟩
        [("r", "trivy", CallEnv.ok 0 none (fallbackAnalysis "x" "r" "trivy"))]).totalCost
        = 0
    ∧ budgetDenied (1/2) (runEngine (1/2) ⟨0, []⟩
        [("r", "trivy", CallEnv.ok 0 none (fallbackAnalysis "x" "r" "trivy"))])
        = false := by
  have h := ollama_zero_cost_admission (1/2) (by norm_num)
  have h4 := h.2.2.2
    [("r", "trivy", CallEnv.ok 0 none (fallbackAnalysis "x" "r" "trivy"))]
    (by
      intro c hcm δ ts a heq
      simp at hcm
      subst hcm
      simp at heq
      exact heq.1.symm)
    ⟨0, []⟩ rfl
  exact ⟨h.1 10 20, h4.1, h4.2⟩

/-- C3 (code bug): for reasoning-family model ids the provider is supposed
to use `max_completion_tokens` and omit temperature; `analyze_stuck_scan`,
`triage_finding`, `generate_remediation` and `execute_prompt` do exactly
that, but `explain_timeout` (openai.py line 304) puts `temperature = 0.5`
into the request unconditionally — contradicting the comment at line 97 of
the same file that these models only support the default temperature.
Evaluated at the failing input `model = "gpt-5"`. -/
theorem explain_timeout_temperature_bug :
    isReasoningModel "gpt-5" = true
    ∧ (explainTimeoutApiParams "gpt-5").temperature = some (1/2)
    ∧ (explainTimeoutApiParams "gpt-5").maxCompletionTokensParam = some 200
    ∧ (explainTimeoutApiParams "gpt-5").maxTokensParam = none
    ∧ (analyzeStuckScanApiParams "gpt-5" 2000).temperature = none
    ∧ (analyzeStuckScanApiParams "gpt-5" 2000).maxCompletionTokensParam = some 2000
    ∧ (triageFindingApiParams "gpt-5").temperature = none
    ∧ (generateRemediationApiParams "gpt-5").temperature = none
    ∧ (executePromptApiParams "gpt-5").temperature = none
    ∧ (∀ m : String, isReasoningModel m = false →
        (explainTimeoutApiParams m).maxTokensParam = some 200
        ∧ (explainTimeoutApiParams m).temperature = some (1/2)
        ∧ (analyzeStuckScanApiParams m 2000).maxTokensParam = some 2000
        ∧ (analyzeStuckScanApiParams m 2000).temperature = some (3/10)) := by
  have hr : isReasoningModel "gpt-5" = true := by decide
  refine ⟨hr, ?_, ?_, ?_, ?_, ?_, ?_, ?_, ?_, ?_⟩
  · simp [explainTimeoutApiParams, hr]
  · simp [explainTimeoutApiParams, hr]
  · simp [explainTimeoutApiParams, hr]
  · simp [analyzeStuckScanApiParams, hr]
  · simp [analyzeStuckScanApiParams, hr]
  · simp [triageFindingApiParams, hr]
  · simp [generateRemediationApiParams, hr]
  · simp [executePromptApiParams, hr]
  · intro m hm
    refine ⟨?_, ?_, ?_, ?_⟩ <;>
      simp [explainTimeoutApiParams, analyzeStuckScanApiParams, hm]

/-- C7 (as amended): the three adapters do not return identically shaped
triage failure results.  The OpenAI failure dicts carry four fields
(priority, confidence, reasoning, false_positive_probability), the Ollama
failure dict three (no false-positive probability), the Claude failure
dict a single priority field; only the engine-level fallback matches the
four-field shape. -/
theorem triage_failure_shapes (severity err : String) :
    (openaiTriageExcFallback severity err).map Prod.fst
        = ["priority", "confidence", "reasoning", "false_positive_probability"]
    ∧ (openaiTriageParseFallback severity).map Prod.fst
        = ["priority", "confidence", "reasoning", "false_positive_probability"]
    ∧ (ollamaTriageFallback severity err).map Prod.fst
        = ["priority", "confidence", "reasoning"]
    ∧ (claudeTriageFallback severity).map Prod.fst = ["priority"]
    ∧ (engineTriageFinding severity (Except.error err)).map Prod.fst
        = ["priority", "confidence", "reasoning", "false_positive_probability"] :=
  ⟨rfl, rfl, rfl, rfl, rfl⟩

/-- Counterexample to C7 as stated: at severity "High" and error "boom"
the Claude triage failure shape differs from the OpenAI one, and the
Ollama failure result lacks the false_positive_probability field. -/
theorem triage_failure_shape_cex :
    (claudeTriageFallback "High").map Prod.fst
      ≠ (openaiTriageExcFallback "High" "boom").map Prod.fst
    ∧ "false_positive_probability"
      ∉ (ollamaTriageFallback "High" "boom").map Prod.fst := by
  constructor
  · decide
  · decide

/-- C6: every orchestrator analysis operation absorbs internal failures
into a typed result instead of raising.  The stuck-scan path converts a
raised collector error into the fallback analysis with confidence 0, cost
0 and tokens 0; the result of every stuck-scan call satisfies the
AIAnalysis invariant whenever provider-produced analyses do (and
unconditionally on every failure path); the triage, remediation,
explain-timeout and architecture-overview operations each map a raised
error to their fixed well-formed fallback value. -/
theorem orchestrator_typed_fallbacks :
    (∀ (ceiling : ℚ) (r sc err : String) (s : EngineState),
      (analyzeStuckScanStep ceiling r sc (CallEnv.collectFail err) s).1.confidence = 0
      ∧ (analyzeStuckScanStep ceiling r sc (CallEnv.collectFail err) s).1.estimated_cost = 0
      ∧ (analyzeStuckScanStep ceiling r sc (CallEnv.collectFail err) s).1.tokens_used = 0
      ∧ wfAnalysis (analyzeStuckScanStep ceiling r sc (CallEnv.collectFail err) s).1)
    ∧ (∀ (ceiling : ℚ) (r sc : String) (env : CallEnv) (s : EngineState),
        (∀ δ ts a, env = CallEnv.ok δ ts a → wfAnalysis a) →
        wfAnalysis (analyzeStuckScanStep ceiling r sc env s).1)
    ∧ (∀ sev e, engineTriageFinding sev (Except.error e)
        = [("priority", JVal.s sev), ("confidence", JVal.q 0),
           ("reasoning", JVal.s ("AI triage failed: " ++ e)),
           ("false_positive_probability", JVal.q 0)])
    ∧ (∀ r sc t e, engineExplainTimeout r sc t (Except.error e)
        = "The " ++ sc ++ " scanner timed out after " ++ toString t
            ++ " seconds while scanning " ++ r ++ ".")
    ∧ (∀ e, engineGenerateRemediation (Except.error e)
        = [("remediation", JVal.s "AI generation failed."),
           ("diff", JVal.s "")])
    ∧ (∀ e, engineGenerateArchitectureOverview true (Except.error e)
        = "Failed to generate architecture overview: " ++ e) := by
  refine ⟨?_, ?_, fun _ _ => rfl, fun _ _ _ _ => rfl, fun _ => rfl, fun _ => rfl⟩
  · intro ceiling r sc err s
    by_cases hd : budgetDenied ceiling s <;>
      simp [analyzeStuckScanStep, hd, fallbackAnalysis, wfAnalysis]
  · intro ceiling r sc env s henv
    by_cases hd : budgetDenied ceiling s
    · simp [analyzeStuckScanStep, hd, fallbackAnalysis, wfAnalysis]
    · cases env with
      | collectFail e =>
        simp [analyzeStuckScanStep, hd, fallbackAnalysis, wfAnalysis]
      | ok δ ts a =>
        simpa [analyzeStuckScanStep, hd] using henv δ ts a rfl

/-- Witness for C6: a concrete admitted call with a well-formed provider
result, a concrete collector failure, and a concrete triage failure. -/
theorem orchestrator_typed_fallbacks_witness :
    wfAnalysis (analyzeStuckScanStep (1/2) "repoZ" "trivy"
        (CallEnv.ok (1/10) none (fallbackAnalysis "x" "repoZ" "trivy"))
        ⟨0, []⟩).1
    ∧ (analyzeStuckScanStep (1/2) "repoZ" "trivy"
        (CallEnv.collectFail "netdown") ⟨0, []⟩).1.confidence = 0
    ∧ engineTriageFinding "High" (Except.error "boom")
        = [("priority", JVal.s "High"), ("confidence", JVal.q 0),
           ("reasoning", JVal.s "AI triage failed: boom"),
           ("false_positive_probability", JVal.q 0)] := by
  have h := orchestrator_typed_fallbacks
  refine ⟨h.2.1 (1/2) "repoZ" "trivy" _ ⟨0, []⟩ ?_,
    (h.1 (1/2) "repoZ" "trivy" "netdown" ⟨0, []⟩).1, h.2.2.1 "High" "boom"⟩
  intro δ ts a heq
  cases heq
  simp [fallbackAnalysis, wfAnalysis]

/-- C8: for every model identifier, each provider cost estimator is
monotonically non-decreasing in both the input and the output token
count. -/
theorem estimate_cost_monotone (model : String) (i1 o1 i2 o2 : ℕ)
    (hi : i1 ≤ i2) (ho : o1 ≤ o2) :
    openaiEstimateCost model i1 o1 ≤ openaiEstimateCost model i2 o2
    ∧ claudeEstimateCost model i1 o1 ≤ claudeEstimateCost model i2 o2
    ∧ ollamaEstimateCost i1 o1 ≤ ollamaEstimateCost i2 o2 := by
  have hi' : (i1 : ℚ) ≤ (i2 : ℚ) := Nat.cast_le.mpr hi
  have ho' : (o1 : ℚ) ≤ (o2 : ℚ) := Nat.cast_le.mpr ho
  have hop1 : 0 ≤ (openaiPricing model).1 := by
    unfold openaiPricing
    split_ifs <;> norm_num
  have hop2 : 0 ≤ (openaiPricing model).2 := by
    unfold openaiPricing
    split_ifs <;> norm_num
  have hcp1 : 0 ≤ (claudePricing model).1 := by
    unfold claudePricing
    split_ifs <;> norm_num
  have hcp2 : 0 ≤ (claudePricing model).2 := by
    unfold claudePricing
    split_ifs <;> norm_num
  refine ⟨?_, ?_, le_refl 0⟩
  · unfold openaiEstimateCost
    gcongr
  · unfold claudeEstimateCost
    gcongr

/-- Witness for C8 at model gpt-4o with token counts (10,20) ≤ (30,40). -/
theorem estimate_cost_monotone_witness :
    openaiEstimateCost "gpt-4o" 10 20 ≤ openaiEstimateCost "gpt-4o" 30 40
    ∧ claudeEstimateCost "claude-3-haiku-20240307" 10 20
        ≤ claudeEstimateCost "claude-3-haiku-20240307" 30 40 := by
  have h1 := estimate_cost_monotone "gpt-4o" 10 20 30 40
    (by norm_num) (by norm_num)
  have h2 := estimate_cost_monotone "claude-3-haiku-20240307" 10 20 30 40
    (by norm_num) (by norm_num)
  exact ⟨h1.1, h2.2.1⟩

/-- C5 (as amended): the generate/execute/repair flow performs at most one
repair transition.  A successful first execution makes no repair call;
after a failed first execution exactly one repair call happens and the
repaired code runs exactly once more; when that second execution also
fails the flow terminates with the last-known (cleaned repaired) source
code and no image — the failure reason is logged but not part of the
returned value — and no further repair is attempted. -/
theorem repair_flow_bounded (code0 : List Char) (env : DiagramEnv) :
    (repairFlow code0 env).repairCalls ≤ 1
    ∧ (∀ e, env.firstExec = ExecResult.fail e →
        (repairFlow code0 env).repairCalls = 1
        ∧ (repairFlow code0 env).execCalls ≤ 2)
    ∧ (∀ img, env.firstExec = ExecResult.ok img →
        repairFlow code0 env = ⟨code0, some img, 0, 1⟩)
    ∧ (∀ e raw e2, env.firstExec = ExecResult.fail e →
        env.repairResult = Except.ok raw → env.secondExec = ExecResult.fail e2 →
        repairFlow code0 env = ⟨cleanCodeBlock raw, none, 1, 2⟩)
    ∧ (∀ e raw img, env.firstExec = ExecResult.fail e →
        env.repairResult = Except.ok raw → env.secondExec = ExecResult.ok img →
        repairFlow code0 env = ⟨cleanCodeBlock raw, some img, 1, 2⟩)
    ∧ (∀ e fe, env.firstExec = ExecResult.fail e →
        env.repairResult = Except.error fe →
        repairFlow code0 env = ⟨code0, none, 1, 1⟩) := by
  obtain ⟨fe, rr, se⟩ := env
  cases fe <;> cases rr <;> cases se <;> simp [repairFlow]

/-- Witness for C5 on a concrete artifact whose repaired code fails
again. -/
theorem repair_flow_bounded_witness :
    repairFlow "broken code".toList
        ⟨ExecResult.fail "NameError: name Foo is not defined",
         Except.ok "fixed code".toList,
         ExecResult.fail "still broken"⟩
      = ⟨cleanCodeBlock "fixed code".toList, none, 1, 2⟩
    ∧ (repairFlow "broken code".toList
        ⟨ExecResult.fail "NameError: name Foo is not defined",
         Except.ok "fixed code".toList,
         ExecResult.fail "still broken"⟩).repairCalls = 1 := by
  have h := repair_flow_bounded "broken code".toList
    ⟨ExecResult.fail "NameError: name Foo is not defined",
     Except.ok "fixed code".toList,
     ExecResult.fail "still broken"⟩
  exact ⟨h.2.2.2.1 "NameError: name Foo is not defined" "fixed code".toList
    "still broken" rfl rfl rfl,
    (h.2.1 "NameError: name Foo is not defined" rfl).1⟩

/-- Counterexample to C5 as stated: the final failed result does not carry
the failure reason.  Two runs whose second executions fail with different
reasons produce identical results (same code, same absent image), so the
returned value cannot contain the failure reason. -/
theorem repair_flow_failure_reason_cex :
    repairFlow "broken code".toList
        ⟨ExecResult.fail "ImportError: cannot import name Foo",
         Except.ok "fixed code".toList, ExecResult.fail "reasonA"⟩
      = repairFlow "broken code".toList
        ⟨ExecResult.fail "ImportError: cannot import name Foo",
         Except.ok "fixed code".toList, ExecResult.fail "reasonB"⟩
    ∧ "reasonA" ≠ "reasonB" := by
  refine ⟨rfl, ?_⟩
  decide

/-- C9: after a successful sandbox run the artifact-location step returns
the image at the well-known filename when present, otherwise the first
`.png` file in the working directory, and reports a failure when no `.png`
file exists; a successful location result always corresponds to an actual
`.png` file of the directory, and a failed script run is itself an error
outcome. -/
theorem locate_artifact_spec (files : List (String × String)) (out img : String) :
    (∀ f, files.find? (fun f => f.1 == "architecture_diagram.png") = some f →
        locateArtifact files = Except.ok f.2)
    ∧ (files.find? (fun f => f.1 == "architecture_diagram.png") = none →
        ∀ f, (files.filter (fun f => pyEndsWith f.1 ".png")).head? = some f →
          locateArtifact files = Except.ok f.2)
    ∧ ((∀ f ∈ files, pyEndsWith f.1 ".png" = false) →
        locateArtifact files = Except.error "No PNG image generated by the script")
    ∧ (locateArtifact files = Except.ok img →
        ∃ f ∈ files, f.2 = img ∧ pyEndsWith f.1 ".png" = true)
    ∧ executeDiagramCode (ScriptRun.failed out)
        = Except.error ("Script execution failed: " ++ out)
    ∧ executeDiagramCode (ScriptRun.exited0 files) = locateArtifact files := by
  refine ⟨?_, ?_, ?_, ?_, rfl, rfl⟩
  · intro f hf
    unfold locateArtifact
    rw [hf]
  · intro hn f hh
    unfold locateArtifact
    rw [hn, hh]
  · intro hnone
    have hwk : files.find? (fun f => f.1 == "architecture_diagram.png") = none := by
      cases hf : files.find? (fun f => f.1 == "architecture_diagram.png") with
      | none => rfl
      | some f =>
        exfalso
        have hp := List.find?_some hf
        have hm := List.mem_of_find?_eq_some hf
        have hname : f.1 = "architecture_diagram.png" := by simpa using hp
        have hpng := hnone f hm
        rw [hname] at hpng
        have hend : pyEndsWith "architecture_diagram.png" ".png" = true := by decide
        rw [hend] at hpng
        exact Bool.noConfusion hpng
    have hfil : files.filter (fun f => pyEndsWith f.1 ".png") = [] :=
      List.filter_eq_nil_iff.mpr (fun a ha => by simp [hnone a ha])
    unfold locateArtifact
    rw [hwk, hfil]
    rfl
  · intro hok
    unfold locateArtifact at hok
    rcases hfind : files.find? (fun f => f.1 == "architecture_diagram.png")
      with _ | f
    · rw [hfind] at hok
      rcases hhead : (files.filter (fun f => pyEndsWith f.1 ".png")).head?
        with _ | g
      · rw [hhead] at hok
        simp at hok
      · rw [hhead] at hok
        simp only [] at hok
        have hg2 : g.2 = img := by
          simpa using hok
        obtain ⟨ys, hys⟩ := List.head?_eq_some_iff.mp hhead
        have hmemf : g ∈ files.filter (fun f => pyEndsWith f.1 ".png") := by
          rw [hys]
          exact List.mem_cons_self _ _
        have hmem := List.mem_filter.mp hmemf
        exact ⟨g, hmem.1, hg2, hmem.2⟩
    · rw [hfind] at hok
      have hf2 : f.2 = img := by simpa using hok
      have hm := List.mem_of_find?_eq_some hfind
      have hp := List.find?_some hfind
      have hname : f.1 = "architecture_diagram.png" := by simpa using hp
      refine ⟨f, hm, hf2, ?_⟩
      rw [hname]
      decide

/-- Witness for C9: a directory with the well-known artifact, and one with
no image file at all. -/
theorem locate_artifact_witness :
    locateArtifact [("architecture_diagram.png", "IMGBYTES")]
        = Except.ok "IMGBYTES"
    ∧ locateArtifact [("notes.txt", "X")]
        = Except.error "No PNG image generated by the script" := by
  have h1 := (locate_artifact_spec [("architecture_diagram.png", "IMGBYTES")]
    "o" "i").1 ("architecture_diagram.png", "IMGBYTES") (by decide)
  have h2 := (locate_artifact_spec [("notes.txt", "X")] "o" "i").2.2.1 (by
    intro f hf
    simp at hf
    subst hf
    decide)
  exact ⟨h1, h2⟩

end AuditGithub
